import Mathlib

/-!
Verification of the Solar-Netra dryer firmware (`src/Solar_Dryer/Solar_Dryer.ino`).

The firmware is shallowly embedded: C `float` values become `ℚ` (comparisons in
the claims only involve exact decimal constants), `unsigned long` millisecond
counters become `ℕ` with C's wrap-around subtraction replaced by truncated
subtraction (traces are taken at monotone times, so no wrap occurs), Arduino
`String`s become `List Char`, and the Bluetooth/SD side effects become explicit
event lists.  The global mutable firmware state becomes explicit state records
threaded through the handler functions, which keep their source names.
-/

namespace SolarDryer

/-! ## Power arbitration (`handlePowerSwitching`, lines 390-425) -/

/-- The three configuration parameters read by `handlePowerSwitching`
(globals `solar_threshold_low`, `solar_threshold_high`, `min_dwell_time`). -/
structure PowerCfg where
  solar_threshold_low : ℚ
  solar_threshold_high : ℚ
  min_dwell_time : ℕ
deriving DecidableEq

/-- The mutable globals touched by `handlePowerSwitching`: the relay pin state
(`digitalRead(RELAY_POWER) == SOLAR_POWER_ACTIVE`), the `usingSolar` flag and
the two dwell timers. -/
structure PowerState where
  relayIsSolar : Bool
  usingSolar : Bool
  solarGoodStartTime : ℕ
  solarBadStartTime : ℕ
deriving DecidableEq

/-- `setup()` drives the relay to AC (`digitalWrite(RELAY_POWER, AC_POWER_ACTIVE)`)
while the global `usingSolar` is initialized `true` (line 61). -/
def initPower : PowerState :=
  { relayIsSolar := false, usingSolar := true, solarGoodStartTime := 0, solarBadStartTime := 0 }

/-- `handlePowerSwitching(float solarVoltage, unsigned long currentMillis)`,
lines 390-425.  Each arm of the outer `if` mirrors the source branch on the
voltage; the trailing unconditional timer resets (lines 404, 419, 422-423) are
folded into every record produced by the corresponding branch. -/
def handlePowerSwitching (cfg : PowerCfg) (s : PowerState)
    (solarVoltage : ℚ) (currentMillis : ℕ) : PowerState :=
  if cfg.solar_threshold_high ≤ solarVoltage then
    if s.relayIsSolar = false then
      if s.solarGoodStartTime = 0 then
        { s with solarGoodStartTime := currentMillis, solarBadStartTime := 0 }
      else if cfg.min_dwell_time ≤ currentMillis - s.solarGoodStartTime then
        { relayIsSolar := true, usingSolar := true,
          solarGoodStartTime := 0, solarBadStartTime := 0 }
      else
        { s with solarBadStartTime := 0 }
    else
      { s with solarBadStartTime := 0 }
  else if solarVoltage < cfg.solar_threshold_low then
    if s.relayIsSolar = true then
      if s.solarBadStartTime = 0 then
        { s with solarBadStartTime := currentMillis, solarGoodStartTime := 0 }
      else if cfg.min_dwell_time ≤ currentMillis - s.solarBadStartTime then
        { relayIsSolar := false, usingSolar := false,
          solarGoodStartTime := 0, solarBadStartTime := 0 }
      else
        { s with solarGoodStartTime := 0 }
    else
      { s with solarGoodStartTime := 0 }
  else
    { s with solarGoodStartTime := 0, solarBadStartTime := 0 }

/-- The control loop evaluates `handlePowerSwitching` once per iteration while
logging; tick `n` supplies the voltage sample `v n` at time `t n` (millis). -/
def powerRun (cfg : PowerCfg) (v : ℕ → ℚ) (t : ℕ → ℕ) : ℕ → PowerState
  | 0 => initPower
  | n + 1 => handlePowerSwitching cfg (powerRun cfg v t n) (v n) (t n)

/-! ## Configuration store (`Config`, `loadConfig`, lines 95-194) -/

/-- The EEPROM `Config` record (lines 95-104). -/
@[ext]
structure Config where
  calibration_factor : ℚ
  solar_threshold_low : ℚ
  solar_threshold_high : ℚ
  min_dwell_time : ℕ
  reinit_interval : ℕ
  sd_log_interval : ℕ
  display_interval : ℕ
  bluetooth_interval : ℕ
deriving DecidableEq

/-- Compiled-in defaults of the configurable globals (lines 48-55). -/
def defaultConfig : Config :=
  { calibration_factor := mkRat 2143 2  -- 1071.5
    solar_threshold_low := 5
    solar_threshold_high := 13
    min_dwell_time := 5000
    reinit_interval := 60000
    sd_log_interval := 2000
    display_interval := 5000
    bluetooth_interval := 5000 }

/-- `loadConfig()` (lines 165-194): `cur` holds the current globals (the
compiled defaults at boot), `loaded` is the record read from EEPROM; each
`if` mirrors one source validation.  Note that the `solar_threshold_high`
check (line 176) compares against `loadedConfig.solar_threshold_low`, i.e.
the stored low threshold, not the accepted one. -/
def loadConfig (cur loaded : Config) : Config :=
  let c := cur
  let c := if 0 < loaded.calibration_factor ∧ loaded.calibration_factor < 20000 then
    { c with calibration_factor := loaded.calibration_factor } else c
  let c := if 0 ≤ loaded.solar_threshold_low ∧ loaded.solar_threshold_low < 50 then
    { c with solar_threshold_low := loaded.solar_threshold_low } else c
  let c := if loaded.solar_threshold_low < loaded.solar_threshold_high ∧
      loaded.solar_threshold_high < 50 then
    { c with solar_threshold_high := loaded.solar_threshold_high } else c
  let c := if 0 < loaded.min_dwell_time ∧ loaded.min_dwell_time < 600000 then
    { c with min_dwell_time := loaded.min_dwell_time } else c
  let c := if 0 < loaded.reinit_interval ∧ loaded.reinit_interval < 3600000 then
    { c with reinit_interval := loaded.reinit_interval } else c
  let c := if 0 < loaded.sd_log_interval ∧ loaded.sd_log_interval < 3600000 then
    { c with sd_log_interval := loaded.sd_log_interval } else c
  let c := if 0 < loaded.display_interval ∧ loaded.display_interval < 60000 then
    { c with display_interval := loaded.display_interval } else c
  let c := if 0 < loaded.bluetooth_interval ∧ loaded.bluetooth_interval < 60000 then
    { c with bluetooth_interval := loaded.bluetooth_interval } else c
  c

/-! ## Arduino `String` primitives

Command text is modelled as `List Char`.  `idxFrom` is `String::indexOf(char,
from)` (returning `-1` when absent), `sub` is `String::substring(from, to)`,
`atol` is `String::toInt()` and `atof` is `String::toFloat()` (decimal forms
only, which is all the firmware's numeric fields use). -/

/-- Scan for `ch`, carrying the absolute index `i` of the list head. -/
def idxAux : List Char → Char → ℕ → Int
  | [], _, _ => -1
  | c :: cs, ch, i => if c = ch then (i : Int) else idxAux cs ch (i + 1)

/-- `String::indexOf(ch, start)`: absolute index of the first `ch` at or after
`start`, `-1` if none. -/
def idxFrom (s : List Char) (ch : Char) (start : ℕ) : Int :=
  idxAux (s.drop start) ch start

/-- `String::substring(a, b)`: characters at indices `[a, b)`. -/
def sub (s : List Char) (a b : ℕ) : List Char :=
  (s.take b).drop a

/-- Digit-accumulation loop of `atol`: consume leading digits into `acc`. -/
def atolDigits : List Char → ℕ → ℕ
  | [], acc => acc
  | c :: cs, acc => if c.isDigit then atolDigits cs (acc * 10 + (c.toNat - 48)) else acc

/-- `String::toInt()` (avr-libc `atol`): optional sign then leading digits;
yields `0` when the string has no leading integer. -/
def atol (s : List Char) : Int :=
  let s' := s.dropWhile (· = ' ')
  match s' with
  | '-' :: rest => -(atolDigits rest 0 : Int)
  | '+' :: rest => (atolDigits rest 0 : Int)
  | _ => (atolDigits s' 0 : Int)

/-- Integer-part loop of `atof`: digit value so far and the unconsumed
remainder. -/
def atofInt : List Char → ℕ → ℕ × List Char
  | [], acc => (acc, [])
  | c :: cs, acc =>
    if c.isDigit then atofInt cs (acc * 10 + (c.toNat - 48)) else (acc, c :: cs)

/-- Fraction-part loop of `atof`: digits after the decimal point as a pair
(digit value, digit count). -/
def atofFrac : List Char → ℕ → ℕ → ℕ × ℕ
  | [], acc, k => (acc, k)
  | c :: cs, acc, k =>
    if c.isDigit then atofFrac cs (acc * 10 + (c.toNat - 48)) (k + 1) else (acc, k)

/-- `String::toFloat()` (avr-libc `atof`) restricted to plain decimal forms
`[sign] digits [. digits]`, assembled exactly as the rational
`sign * (intpart.fracpart)`; yields `0` when nothing parses. -/
def atof (s : List Char) : ℚ :=
  let s' := s.dropWhile (· = ' ')
  let signAndRest : Int × List Char :=
    match s' with
    | '-' :: rest => (-1, rest)
    | '+' :: rest => (1, rest)
    | _ => (1, s')
  let ip := atofInt signAndRest.2 0
  match ip.2 with
  | '.' :: frac =>
    let fr := atofFrac frac 0 0
    mkRat (signAndRest.1 * ((ip.1 * 10 ^ fr.2 + fr.1 : ℕ) : Int)) (10 ^ fr.2)
  | _ => mkRat (signAndRest.1 * (ip.1 : Int)) 1

/-- C cast `(unsigned long)` of a float value: truncation toward zero
(`Int.tdiv` truncates toward zero); the firmware only casts nonnegative
parsed values, negatives are clamped at `0`. -/
def ulongOfQ (q : ℚ) : ℕ :=
  (q.num.tdiv (q.den : Int)).toNat

/-- `Print::println(unsigned long)` decimal rendering. -/
def fmtNat (n : ℕ) : String :=
  toString n

/-- `Print::println(float)`: Arduino `printFloat` with the default 2 decimal
places — add the 0.005 rounding term, print the integer part, then two
digits extracted by repeated multiplication.  Written over the numerator and
denominator so `|q| + 5/1000 = rn / rd`. -/
def fmtFloat2 (q : ℚ) : String :=
  let neg := q.num < 0
  let rn := 1000 * q.num.natAbs + 5 * q.den
  let rd := 1000 * q.den
  let ip := rn / rd
  let fr := rn % rd
  let d1 := 10 * fr / rd
  let fr2 := 10 * fr % rd
  let d2 := 10 * fr2 / rd
  (if neg then "-" else "") ++ toString ip ++ "." ++ toString d1 ++ toString d2

/-! ## Controller state, environment and events -/

/-- `enum SystemState` (lines 76-80). -/
inductive SystemState where
  | WAITING_FOR_COMMAND
  | LOGGING_DATA
  | DOWNLOADING_FILE
deriving DecidableEq

/-- Parsed `struct SessionDateTime` (lines 115-122); fields are C `int`s
assigned from `toInt()`. -/
structure SessionDateTime where
  day : Int
  month : Int
  year : Int
  hour : Int
  minute : Int
  second : Int
deriving DecidableEq

/-- The mutable firmware globals the command handlers touch.  `dataFileOpen`
is `dataFile.isOpen()`, `eepromFilename` the record written by
`saveLastFilenameToEEPROM` / read by `loadLastFilenameFromEEPROM`, and
`eepromConfig` the record written by `saveConfig`. -/
structure SysState where
  currentState : SystemState
  isLogging : Bool
  dataFileOpen : Bool
  sdCardAvailable : Bool
  currentFileName : List Char
  currentFruit : List Char
  sessionStartTime : List Char
  sessionStartMillis : ℕ
  initialDateTime : SessionDateTime
  config : Config
  eepromFilename : List Char
  eepromConfig : Config
deriving DecidableEq

/-- Environment supplied by the hardware on one command: which names exist in
the SD root, the bytes of a file opened read-only, whether an open for
writing/appending succeeds, whether the scale answers the tare, and
`millis()`. -/
structure Env where
  sdFiles : List (List Char)
  fileData : List Char → List Char
  openOk : Bool
  rootOk : Bool
  tareOk : Bool
  now : ℕ

/-- Observable effects of a handler: a line printed to the Bluetooth link, or
a line appended to the open session file. -/
inductive Ev where
  | bt (line : String)
  | file (line : String)
deriving DecidableEq

/-- Boot state after a successful `setup()` with a working SD card and an
EEPROM holding no previous session file name: `currentState` starts at
`WAITING_FOR_COMMAND` (line 82), `isLogging` false (line 91), no file open. -/
def initState : SysState :=
  { currentState := .WAITING_FOR_COMMAND
    isLogging := false
    dataFileOpen := false
    sdCardAvailable := true
    currentFileName := []
    currentFruit := []
    sessionStartTime := []
    sessionStartMillis := 0
    initialDateTime := ⟨0, 0, 0, 0, 0, 0⟩
    config := defaultConfig
    eepromFilename := []
    eepromConfig := defaultConfig }

/-! ## Session / protocol handlers (lines 196-938) -/

/-- `parseInitialDateTime` (lines 252-273).  The C function writes the parsed
fields through its reference argument before validating, so on a 15-character
string that fails the range checks the caller's `SessionDateTime` has already
been overwritten; the returned pair is (value left in the reference, return
value). -/
def parseInitialDateTime (str : List Char) (old : SessionDateTime) : SessionDateTime × Bool :=
  if str.length ≠ 15 then (old, false)
  else
    let dt : SessionDateTime :=
      { day := atol (sub str 0 2)
        month := atol (sub str 2 4)
        year := atol (sub str 4 8)
        hour := atol (sub str 9 11)
        minute := atol (sub str 11 13)
        second := atol (sub str 13 15) }
    if dt.day < 1 ∨ dt.day > 31 ∨ dt.month < 1 ∨ dt.month > 12 ∨
        dt.hour < 0 ∨ dt.hour > 23 ∨ dt.minute < 0 ∨ dt.minute > 59 ∨
        dt.second < 0 ∨ dt.second > 59 then
      (dt, false)
    else
      (dt, true)

/-- `sendAlert()` (lines 427-431). -/
def sendAlert : List Ev :=
  [.bt "ALERT:SYSTEM_READY", .bt "OPTIONS:NEW_DRYING,CONTINUED_DRYING,DOWNLOAD_FILE"]

/-- `softReset()` (lines 764-781): back to the waiting state, logging flag
cleared, file closed; `currentFileNameBuffer` deliberately kept. -/
def softReset (s : SysState) : SysState × List Ev :=
  ({ s with currentState := .WAITING_FOR_COMMAND, isLogging := false,
            dataFileOpen := false, currentFruit := [], sessionStartTime := [],
            sessionStartMillis := 0 },
   .bt "STATUS:SYSTEM_RESET" :: sendAlert)

/-- `performTare()` (lines 703-726): the scale either answers within the
5-second window (`env.tareOk`) or the tare fails and the scale is re-begun. -/
def performTare (env : Env) : List Ev :=
  .bt "STATUS:TARING" ::
    (if env.tareOk then [.bt "OK:TARE_COMPLETE"] else [.bt "ERROR:Tare failed"])

/-- `createNewFile(String fruit, String datetime)` (lines 666-701): close any
open file, format the name (`snprintf` into a 32-byte buffer truncates to 31
characters), replace spaces by underscores, then create/truncate.  On success
the header row is written, the name persisted to EEPROM and the handle left
open; on failure `sdCardAvailable` and `isLogging` are cleared. -/
def createNewFile (env : Env) (s : SysState) (fruit datetime : List Char) :
    SysState × List Ev :=
  let name := ((fruit ++ '_' :: datetime ++ ".txt".toList).take 31).map
    (fun c => if c = ' ' then '_' else c)
  let s1 := { s with dataFileOpen := false, currentFileName := name }
  if env.openOk then
    ({ s1 with dataFileOpen := true, eepromFilename := name },
     [.file "Timestamp,InsideTemp,InsideHum,MiddleTemp,MiddleHum,OutsideTemp,OutsideHum,Weight,SolarVoltage,PowerSource",
      .bt "OK:FILE_CREATED"])
  else
    ({ s1 with sdCardAvailable := false, isLogging := false },
     [.bt "ERROR:FILE_CREATION_FAILED"])

/-- `handleNewDrying(String command)` (lines 433-473). -/
def handleNewDrying (env : Env) (s : SysState) (command : List Char) :
    SysState × List Ev :=
  let firstColon := idxFrom command ':' 11
  let secondColon := idxFrom command ':' (firstColon + 1).toNat
  if firstColon = -1 ∨ secondColon = -1 then
    (s, [.bt "ERROR:Invalid format"])
  else
    let fruit := sub command 11 firstColon.toNat
    let date := sub command (firstColon.toNat + 1) secondColon.toNat
    let time := command.drop (secondColon.toNat + 1)
    let datetimeStr := date ++ '_' :: time
    let parsed := parseInitialDateTime datetimeStr s.initialDateTime
    let s1 := { s with initialDateTime := parsed.1 }
    if parsed.2 = false then
      (s1, [.bt "ERROR:Invalid datetime format"])
    else
      let s2 := { s1 with currentFruit := fruit, sessionStartTime := date ++ '_' :: time,
                          sessionStartMillis := env.now }
      let r := createNewFile env s2 fruit (date ++ '_' :: time)
      if r.1.dataFileOpen then
        ({ r.1 with currentState := .LOGGING_DATA },
         r.2 ++ performTare env ++
           [.bt ("OK:NEW_SESSION_CREATED:" ++ String.mk r.1.currentFileName),
            .bt "STATUS:READY_TO_START"])
      else
        let r2 := softReset r.1
        (r2.1, r.2 ++ .bt "ERROR:Failed to setup new drying session." :: r2.2)

/-- `handleContinuedDrying(String command)` (lines 475-553). -/
def handleContinuedDrying (env : Env) (s : SysState) (command : List Char) :
    SysState × List Ev :=
  let firstColonIdx := idxFrom command ':' 0
  if firstColonIdx = -1 then
    (s, [.bt "ERROR:Invalid command format (missing first colon)"])
  else
    let secondColonIdx := idxFrom command ':' (firstColonIdx.toNat + 1)
    if secondColonIdx = -1 then
      (s, [.bt "ERROR:Invalid command format (missing second colon)"])
    else
      let date := sub command (firstColonIdx.toNat + 1) secondColonIdx.toNat
      let time := command.drop (secondColonIdx.toNat + 1)
      let datetimeStr := date ++ '_' :: time
      let parsed := parseInitialDateTime datetimeStr s.initialDateTime
      let s1 := { s with initialDateTime := parsed.1 }
      if parsed.2 = false then
        (s1, [.bt "ERROR:Invalid datetime format"])
      else
        let s2 := { s1 with currentFileName := s1.eepromFilename }
        if s2.currentFileName.length = 0 then
          let r := softReset s2
          (r.1, .bt "ERROR:No previous file found in EEPROM" :: r.2)
        else if s2.currentFileName ∈ env.sdFiles then
          let s3 := { s2 with dataFileOpen := false }
          if env.openOk then
            ({ s3 with dataFileOpen := true, sessionStartMillis := env.now,
                       currentState := .LOGGING_DATA, isLogging := true },
             [.bt ("OK:CONTINUED_SESSION:" ++ String.mk s3.currentFileName),
              .bt "STATUS:LOGGING_STARTED",
              .file ("# Time reference reset to: " ++ String.mk datetimeStr)])
          else
            let r := softReset s3
            (r.1, .bt "ERROR:Could not open file for appending" :: r.2)
        else
          let r := softReset s2
          (r.1, .bt "ERROR:File not found" :: r.2)

/-- `startLogging()` (lines 729-749). -/
def startLogging (env : Env) (s : SysState) : SysState × List Ev :=
  if s.isLogging = false then
    if s.dataFileOpen = false then
      let r := softReset s
      (r.1, .bt "ERROR:No file open to start logging." :: r.2)
    else
      ({ s with isLogging := true, sessionStartMillis := env.now },
       [.bt "STATUS:LOGGING_STARTED"])
  else
    (s, [.bt "STATUS:ALREADY_LOGGING"])

/-- `stopLogging()` (lines 751-762): clear the flag, close the file, then
`softReset()`. -/
def stopLogging (s : SysState) : SysState × List Ev :=
  let s1 := { s with isLogging := false, dataFileOpen := false }
  let r := softReset s1
  (r.1, .bt "STATUS:LOGGING_STOPPED" :: r.2)

/-- `listSDFiles()` (lines 560-612): enumerate the root, emitting `FILE:` per
non-directory entry; the environment supplies the entry names (the driver's
`getName`-failure placeholder path is subsumed by `env.sdFiles`). -/
def listSDFiles (env : Env) : List Ev :=
  .bt "FILES_LIST_START" ::
    (if env.rootOk then env.sdFiles.map (fun n => Ev.bt ("FILE:" ++ String.mk n))
     else [.bt "ERROR:Could not open SD root"]) ++
    [.bt "FILES_LIST_END"]

/-- `handleDownloadFile()` (lines 555-558). -/
def handleDownloadFile (env : Env) (s : SysState) : SysState × List Ev :=
  ({ s with currentState := .DOWNLOADING_FILE }, listSDFiles env)

/-- Character loop of `sendFileContent` (lines 627-652): split on `'\n'`, flush
a full 127-character line buffer (dropping the overflowing character), skip
`'\r'`, and emit a `PROGRESS:` marker every 10 lines. -/
def sendLoop : List Char → List Char → ℕ → List Ev
  | [], lineBuf, _ =>
    if lineBuf.length > 0 then [.bt (String.mk lineBuf)] else []
  | c :: rest, lineBuf, lineCount =>
    if c = '\n' ∨ lineBuf.length ≥ 127 then
      .bt (String.mk lineBuf) ::
        (if (lineCount + 1) % 10 = 0 then
          [.bt ("PROGRESS:" ++ fmtNat (((lineCount + 1) * 10) % 100))] else []) ++
        sendLoop rest [] (lineCount + 1)
    else if c ≠ '\r' then
      sendLoop rest (lineBuf ++ [c]) lineCount
    else
      sendLoop rest lineBuf lineCount

/-- `sendFileContent(String filename)` (lines 614-664): the name is copied
into a 32-byte buffer (truncating to 31 characters) and opened read-only. -/
def sendFileContent (env : Env) (filename : List Char) : List Ev :=
  let name := filename.take 31
  if name ∈ env.sdFiles then
    .bt ("FILE_CONTENT_START:" ++ String.mk filename) ::
      sendLoop (env.fileData name) [] 0 ++
      [.bt "PROGRESS:100", .bt "FILE_CONTENT_END"]
  else
    [.bt "ERROR:File not found"]

/-- `bluetooth.println` lines of the `GETCONFIG` dump (lines 198-207). -/
def getConfigOutput (c : Config) : List Ev :=
  [.bt "CONFIG:START",
   .bt ("CONFIG:CALIB:" ++ fmtFloat2 c.calibration_factor),
   .bt ("CONFIG:SOLAR_LOW:" ++ fmtFloat2 c.solar_threshold_low),
   .bt ("CONFIG:SOLAR_HIGH:" ++ fmtFloat2 c.solar_threshold_high),
   .bt ("CONFIG:DWELL_TIME:" ++ fmtNat c.min_dwell_time),
   .bt ("CONFIG:REINIT_INT:" ++ fmtNat c.reinit_interval),
   .bt ("CONFIG:SD_LOG_INT:" ++ fmtNat c.sd_log_interval),
   .bt ("CONFIG:DISPLAY_INT:" ++ fmtNat c.display_interval),
   .bt ("CONFIG:BT_INT:" ++ fmtNat c.bluetooth_interval),
   .bt "CONFIG:END"]

/-- `handleSetCommand(String command)` (lines 216-233): split at the colon
after `"SET:"`, parse the value with `toFloat()`, update the matching field
(casting through `(unsigned long)` for the interval fields) and acknowledge
with `OK:SETTING_UPDATED` whether or not the key matched. -/
def handleSetCommand (s : SysState) (command : List Char) : SysState × List Ev :=
  let firstColon := idxFrom command ':' 4
  if firstColon = -1 then (s, [])
  else
    let key := sub command 4 firstColon.toNat
    let value := atof (command.drop (firstColon.toNat + 1))
    let cfg := s.config
    let cfg :=
      if key = "CALIB".toList then { cfg with calibration_factor := value }
      else if key = "SOLAR_LOW".toList then { cfg with solar_threshold_low := value }
      else if key = "SOLAR_HIGH".toList then { cfg with solar_threshold_high := value }
      else if key = "DWELL_TIME".toList then { cfg with min_dwell_time := ulongOfQ value }
      else if key = "REINIT_INT".toList then { cfg with reinit_interval := ulongOfQ value }
      else if key = "SD_LOG_INT".toList then { cfg with sd_log_interval := ulongOfQ value }
      else if key = "DISPLAY_INT".toList then { cfg with display_interval := ulongOfQ value }
      else if key = "BT_INT".toList then { cfg with bluetooth_interval := ulongOfQ value }
      else cfg
    ({ s with config := cfg }, [.bt "OK:SETTING_UPDATED"])

/-- `handleConfigCommand(String command)` (lines 196-214). -/
def handleConfigCommand (s : SysState) (command : List Char) : SysState × List Ev :=
  if "GETCONFIG".toList.isPrefixOf command then
    (s, getConfigOutput s.config)
  else if "SET:".toList.isPrefixOf command then
    handleSetCommand s command
  else if command = "SAVECONFIG".toList then
    ({ s with eepromConfig := s.config }, [.bt "OK:CONFIG_SAVED"])
  else
    (s, [])

/-- The per-state command dispatch of `processBluetoothCommands`
(lines 884-923). -/
def dispatchCommand (env : Env) (s : SysState) (command : List Char) :
    SysState × List Ev :=
  match s.currentState with
  | .WAITING_FOR_COMMAND =>
    if "NEW_DRYING:".toList.isPrefixOf command then handleNewDrying env s command
    else if "CONTINUED_DRYING:".toList.isPrefixOf command then handleContinuedDrying env s command
    else if "GETCONFIG".toList.isPrefixOf command ∨ "SET:".toList.isPrefixOf command ∨
        command = "SAVECONFIG".toList then handleConfigCommand s command
    else if command = "DOWNLOAD_FILE".toList then handleDownloadFile env s
    else if command = "RESET_SYSTEM".toList then softReset s
    else (s, [.bt "ERROR:UNKNOWN_COMMAND_WAITING_STATE"])
  | .LOGGING_DATA =>
    if command = "START".toList then startLogging env s
    else if command = "STOP".toList then stopLogging s
    else if command = "T".toList ∨ command = "t".toList then (s, performTare env)
    else if "GETCONFIG".toList.isPrefixOf command ∨ "SET:".toList.isPrefixOf command ∨
        command = "SAVECONFIG".toList then handleConfigCommand s command
    else if command = "RESET_SYSTEM".toList then stopLogging s
    else (s, [.bt "ERROR:UNKNOWN_COMMAND_LOGGING_STATE"])
  | .DOWNLOADING_FILE =>
    if "GET_FILE:".toList.isPrefixOf command then (s, sendFileContent env (command.drop 9))
    else if command = "BACK".toList then softReset s
    else if command = "RESET_SYSTEM".toList then softReset s
    else (s, [.bt "ERROR:UNKNOWN_COMMAND_DOWNLOADING_STATE"])

/-! ## Byte-level command assembly (`processBluetoothCommands`, lines 872-938)

The byte loop is staged: `procBytes` performs the buffer management of the
source loop and records, in order, each complete line handed to the dispatch
switch (`LineEv.cmd`) and each `ERROR:Command too long` rejection
(`LineEv.tooLong`); `runLineEvs` then applies the dispatch to those events.
The staging is faithful because the dispatch never touches `btCmdBuffer` or
`btCmdBufferIndex`. -/

/-- One buffer-level event of the byte loop. -/
inductive LineEv where
  | cmd (line : List Char)
  | tooLong
deriving DecidableEq

/-- Buffer management of the byte loop: on `'\n'`/`'\r'` a non-empty buffer
becomes a dispatched command; a 128th non-terminator character triggers the
too-long rejection, dropping both the buffer and that character
(`BT_CMD_BUFFER_SIZE = 128`, append guard `btCmdBufferIndex < 127`). -/
def procBytes : List Char → List Char → List LineEv × List Char
  | buf, [] => ([], buf)
  | buf, c :: rest =>
    if c = '\n' ∨ c = '\r' then
      if buf.length > 0 then
        let r := procBytes [] rest
        (.cmd buf :: r.1, r.2)
      else
        procBytes buf rest
    else if buf.length < 127 then
      procBytes (buf ++ [c]) rest
    else
      let r := procBytes [] rest
      (.tooLong :: r.1, r.2)

/-- Apply the dispatch switch to the buffer-level events in order. -/
def runLineEvs (env : Env) (s : SysState) : List LineEv → SysState × List Ev
  | [] => (s, [])
  | .tooLong :: evs =>
    let r := runLineEvs env s evs
    (r.1, .bt "ERROR:Command too long" :: r.2)
  | .cmd c :: evs =>
    let r1 := dispatchCommand env s c
    let r2 := runLineEvs env r1.1 evs
    (r2.1, r1.2 ++ r2.2)

/-- `processBluetoothCommands()`: drain the pending input bytes through the
buffer and dispatch each completed command. -/
def processBluetoothCommands (env : Env) (s : SysState) (buf input : List Char) :
    SysState × List Char × List Ev :=
  let p := procBytes buf input
  let r := runLineEvs env s p.1
  (r.1, p.2, r.2)

/-! ## Theorems -/

/-- Invariant of the good-dwell timer: whenever `solarGoodStartTime` is armed
(non-zero), it records the time of an earlier tick, and the voltage has been
at or above the high threshold on every tick since. -/
lemma powerRun_goodTimer (cfg : PowerCfg) (v : ℕ → ℚ) (t : ℕ → ℕ) (n : ℕ)
    (h : (powerRun cfg v t n).solarGoodStartTime ≠ 0) :
    ∃ j < n, t j = (powerRun cfg v t n).solarGoodStartTime ∧
      ∀ k, j ≤ k → k < n → cfg.solar_threshold_high ≤ v k := by
  induction n with
  | zero => simp [powerRun, initPower] at h
  | succ n ih =>
    have hstep : powerRun cfg v t (n + 1)
        = handlePowerSwitching cfg (powerRun cfg v t n) (v n) (t n) := rfl
    by_cases hv : cfg.solar_threshold_high ≤ v n
    · by_cases hr : (powerRun cfg v t n).relayIsSolar = false
      · by_cases hg : (powerRun cfg v t n).solarGoodStartTime = 0
        · -- the timer was just armed with the current tick's time
          rw [hstep] at h ⊢
          simp [handlePowerSwitching, hv, hr, hg] at h ⊢
          exact ⟨n, Nat.lt_succ_self n, rfl,
            fun k hk1 hk2 => by
              have : k = n := Nat.le_antisymm (Nat.lt_succ_iff.mp hk2) hk1
              simpa [this] using hv⟩
        · by_cases hd : cfg.min_dwell_time ≤ t n - (powerRun cfg v t n).solarGoodStartTime
          · -- the switch tick clears the timer, contradicting `h`
            rw [hstep] at h
            simp [handlePowerSwitching, hv, hr, hg, hd] at h
          · -- timer keeps running; extend the invariant by the current tick
            rw [hstep] at h ⊢
            simp only [handlePowerSwitching, if_pos hv, if_pos hr, if_neg hg, if_neg hd] at h ⊢
            obtain ⟨j, hj, htj, hall⟩ := ih h
            exact ⟨j, Nat.lt_succ_of_lt hj, htj,
              fun k hk1 hk2 => by
                rcases Nat.lt_succ_iff_lt_or_eq.mp hk2 with hlt | heq
                · exact hall k hk1 hlt
                · simpa [heq] using hv⟩
      · -- relay already on solar: timer untouched, voltage still good
        rw [hstep] at h ⊢
        simp only [handlePowerSwitching, if_pos hv, if_neg hr] at h ⊢
        obtain ⟨j, hj, htj, hall⟩ := ih h
        exact ⟨j, Nat.lt_succ_of_lt hj, htj,
          fun k hk1 hk2 => by
            rcases Nat.lt_succ_iff_lt_or_eq.mp hk2 with hlt | heq
            · exact hall k hk1 hlt
            · simpa [heq] using hv⟩
    · by_cases hl : v n < cfg.solar_threshold_low
      · -- bad-voltage tick: the good timer is reset in every sub-branch
        rw [hstep] at h
        by_cases hr : (powerRun cfg v t n).relayIsSolar = true
        · by_cases hb : (powerRun cfg v t n).solarBadStartTime = 0
          · simp [handlePowerSwitching, hv, hl, hr, hb] at h
          · by_cases hd : cfg.min_dwell_time ≤ t n - (powerRun cfg v t n).solarBadStartTime
            · simp [handlePowerSwitching, hv, hl, hr, hb, hd] at h
            · simp [handlePowerSwitching, hv, hl, hr, hb, hd] at h
        · simp [handlePowerSwitching, hv, hl, hr] at h
      · -- between the thresholds: both timers reset
        rw [hstep] at h
        simp [handlePowerSwitching, hv, hl] at h

/-- Claim C1: on every trace of the power arbitration, the relay switches to
solar at tick `n` only if some earlier tick `j` armed the timer and the
voltage stayed at or above `solar_threshold_high` on every tick from `j`
through `n`, spanning at least `min_dwell_time` milliseconds; the tick that
switches clears both dwell timers, and any tick whose voltage falls below the
high threshold resets the good timer to zero, so held duration never
accumulates across interruptions. -/
theorem handlePowerSwitching_dwell (cfg : PowerCfg) (v : ℕ → ℚ) (t : ℕ → ℕ) (n : ℕ) :
    ((powerRun cfg v t n).relayIsSolar = false →
      (powerRun cfg v t (n + 1)).relayIsSolar = true →
        (∃ j ≤ n, cfg.min_dwell_time ≤ t n - t j ∧
          ∀ k, j ≤ k → k ≤ n → cfg.solar_threshold_high ≤ v k) ∧
        (powerRun cfg v t (n + 1)).solarGoodStartTime = 0 ∧
        (powerRun cfg v t (n + 1)).solarBadStartTime = 0) ∧
    (v n < cfg.solar_threshold_high →
      (powerRun cfg v t (n + 1)).solarGoodStartTime = 0) := by
  have hstep : powerRun cfg v t (n + 1)
      = handlePowerSwitching cfg (powerRun cfg v t n) (v n) (t n) := rfl
  constructor
  · intro h1 h2
    by_cases hv : cfg.solar_threshold_high ≤ v n
    · by_cases hg : (powerRun cfg v t n).solarGoodStartTime = 0
      · -- arming tick: the relay does not change, contradicting the switch
        rw [hstep] at h2
        simp [handlePowerSwitching, hv, h1, hg] at h2
      · by_cases hd : cfg.min_dwell_time ≤ t n - (powerRun cfg v t n).solarGoodStartTime
        · -- genuine switch: combine the timer invariant with this tick
          obtain ⟨j, hj, htj, hall⟩ := powerRun_goodTimer cfg v t n hg
          refine ⟨⟨j, Nat.le_of_lt hj, ?_, ?_⟩, ?_, ?_⟩
          · rw [htj]; exact hd
          · intro k hk1 hk2
            rcases Nat.lt_or_ge k n with hlt | hge
            · exact hall k hk1 hlt
            · have : k = n := Nat.le_antisymm hk2 hge
              simpa [this] using hv
          · rw [hstep]; simp [handlePowerSwitching, hv, h1, hg, hd]
          · rw [hstep]; simp [handlePowerSwitching, hv, h1, hg, hd]
        · rw [hstep] at h2
          simp [handlePowerSwitching, hv, h1, hg, hd] at h2
    · -- voltage not good: the relay cannot have switched to solar
      exfalso
      rw [hstep] at h2
      by_cases hl : v n < cfg.solar_threshold_low
      · by_cases hr : (powerRun cfg v t n).relayIsSolar = true
        · exact absurd h1 (by simp [hr])
        · simp [handlePowerSwitching, hv, hl, hr, h1] at h2
      · simp [handlePowerSwitching, hv, hl, h1] at h2
  · intro hv
    have hv' : ¬ cfg.solar_threshold_high ≤ v n := not_le.mpr hv
    rw [hstep]
    by_cases hl : v n < cfg.solar_threshold_low
    · by_cases hr : (powerRun cfg v t n).relayIsSolar = true
      · by_cases hb : (powerRun cfg v t n).solarBadStartTime = 0
        · simp [handlePowerSwitching, hv', hl, hr, hb]
        · by_cases hd : cfg.min_dwell_time ≤ t n - (powerRun cfg v t n).solarBadStartTime
          · simp [handlePowerSwitching, hv', hl, hr, hb, hd]
          · simp [handlePowerSwitching, hv', hl, hr, hb, hd]
      · simp [handlePowerSwitching, hv', hl, hr]
    · simp [handlePowerSwitching, hv', hl]

/-- Dwell scenario for the C1 witness: constant 14 V while on grid power,
samples every 3 s, 5 s dwell requirement (the compiled defaults). -/
def powerCfgW : PowerCfg :=
  { solar_threshold_low := 5, solar_threshold_high := 13, min_dwell_time := 5000 }

/-- Constant qualifying voltage for the C1 witness. -/
def vW : ℕ → ℚ := fun _ => 14

/-- Sample times for the C1 witness. -/
def tW : ℕ → ℕ := fun n => (n + 1) * 3000

/-- Witness for C1: in the scenario the relay switches to solar on tick 2,
and the theorem yields the dwell interval and the timer clearing there. -/
theorem handlePowerSwitching_dwell_witness :
    (∃ j ≤ 2, powerCfgW.min_dwell_time ≤ tW 2 - tW j ∧
      ∀ k, j ≤ k → k ≤ 2 → powerCfgW.solar_threshold_high ≤ vW k) ∧
    (powerRun powerCfgW vW tW 3).solarGoodStartTime = 0 ∧
    (powerRun powerCfgW vW tW 3).solarBadStartTime = 0 :=
  (handlePowerSwitching_dwell powerCfgW vW tW 2).1 (by decide) (by decide)

/-- Claim C2 (counterexample): two stored records agreeing on
`solar_threshold_high` (= 20, inside every per-field bound) but differing on
`solar_threshold_low` make `loadConfig` return different high thresholds —
the stored value 20 when the stored low is 5, but the compiled default 13
when the stored low is 49 — so whether the high field is accepted depends on
another field's stored value. -/
theorem loadConfig_high_depends_on_low :
    (loadConfig defaultConfig
      { defaultConfig with solar_threshold_low := 5,
                           solar_threshold_high := 20 }).solar_threshold_high = 20 ∧
    (loadConfig defaultConfig
      { defaultConfig with solar_threshold_low := 49,
                           solar_threshold_high := 20 }).solar_threshold_high = 13 := by
  decide

/-- Claim C2 (amended): `loadConfig` is total (never errors) and validates
field by field, returning the stored value exactly when it passes its bound
and the compiled default otherwise; seven of the eight bounds read only
their own stored field, but the `solar_threshold_high` bound also reads the
stored `solar_threshold_low`. -/
theorem loadConfig_fieldwise (stored : Config) :
    loadConfig defaultConfig stored =
      { calibration_factor :=
          if 0 < stored.calibration_factor ∧ stored.calibration_factor < 20000 then
            stored.calibration_factor else defaultConfig.calibration_factor
        solar_threshold_low :=
          if 0 ≤ stored.solar_threshold_low ∧ stored.solar_threshold_low < 50 then
            stored.solar_threshold_low else defaultConfig.solar_threshold_low
        solar_threshold_high :=
          if stored.solar_threshold_low < stored.solar_threshold_high ∧
              stored.solar_threshold_high < 50 then
            stored.solar_threshold_high else defaultConfig.solar_threshold_high
        min_dwell_time :=
          if 0 < stored.min_dwell_time ∧ stored.min_dwell_time < 600000 then
            stored.min_dwell_time else defaultConfig.min_dwell_time
        reinit_interval :=
          if 0 < stored.reinit_interval ∧ stored.reinit_interval < 3600000 then
            stored.reinit_interval else defaultConfig.reinit_interval
        sd_log_interval :=
          if 0 < stored.sd_log_interval ∧ stored.sd_log_interval < 3600000 then
            stored.sd_log_interval else defaultConfig.sd_log_interval
        display_interval :=
          if 0 < stored.display_interval ∧ stored.display_interval < 60000 then
            stored.display_interval else defaultConfig.display_interval
        bluetooth_interval :=
          if 0 < stored.bluetooth_interval ∧ stored.bluetooth_interval < 60000 then
            stored.bluetooth_interval else defaultConfig.bluetooth_interval } := by
  ext
  · simp only [loadConfig, apply_ite Config.calibration_factor, ite_self]
  · simp only [loadConfig, apply_ite Config.solar_threshold_low, ite_self]
  · simp only [loadConfig, apply_ite Config.solar_threshold_high, ite_self]
  · simp only [loadConfig, apply_ite Config.min_dwell_time, ite_self]
  · simp only [loadConfig, apply_ite Config.reinit_interval, ite_self]
  · simp only [loadConfig, apply_ite Config.sd_log_interval, ite_self]
  · simp only [loadConfig, apply_ite Config.display_interval, ite_self]
  · simp only [loadConfig, apply_ite Config.bluetooth_interval, ite_self]

/-- Environment used by the concrete command scenarios: SD card working, file
creation succeeding, scale answering the tare, no pre-existing files. -/
def envW : Env :=
  { sdFiles := [], fileData := fun _ => [], openOk := true, rootOk := true,
    tareOk := true, now := 0 }

/-- Claim C10: `SET:DWELL_TIME:0` is accepted without range validation — the
in-memory `min_dwell_time` becomes 0, leaving the sane range `loadConfig`
enforces at boot (a reload would replace it by the default 5000), so the
bound is established at load time only, not preserved by `handleSetCommand`. -/
theorem handleSetCommand_no_range_validation :
    (handleSetCommand initState ("SET:DWELL_TIME:0".toList)).1.config.min_dwell_time = 0 ∧
    (handleSetCommand initState ("SET:DWELL_TIME:0".toList)).2 = [.bt "OK:SETTING_UPDATED"] ∧
    ¬ (0 < (handleSetCommand initState ("SET:DWELL_TIME:0".toList)).1.config.min_dwell_time ∧
        (handleSetCommand initState ("SET:DWELL_TIME:0".toList)).1.config.min_dwell_time < 600000) ∧
    (0 < initState.config.min_dwell_time ∧ initState.config.min_dwell_time < 600000) ∧
    (loadConfig defaultConfig
      (handleSetCommand initState ("SET:DWELL_TIME:0".toList)).1.config).min_dwell_time = 5000 := by
  decide

/-- Claim C8: from Idle with working storage, `NEW_DRYING:Mango:01012024:080000`
answers `OK:NEW_SESSION_CREATED:Mango_01012024_080000.txt` and leaves the
controller in the Logging state with `isLogging` still false; the following
`START` answers `STATUS:LOGGING_STARTED` and sets `isLogging`. -/
theorem newDrying_scenario :
    Ev.bt "OK:NEW_SESSION_CREATED:Mango_01012024_080000.txt" ∈
      (dispatchCommand envW initState ("NEW_DRYING:Mango:01012024:080000".toList)).2 ∧
    (dispatchCommand envW initState
      ("NEW_DRYING:Mango:01012024:080000".toList)).1.currentState = .LOGGING_DATA ∧
    (dispatchCommand envW initState
      ("NEW_DRYING:Mango:01012024:080000".toList)).1.isLogging = false ∧
    (dispatchCommand envW
      (dispatchCommand envW initState ("NEW_DRYING:Mango:01012024:080000".toList)).1
      ("START".toList)).2 = [.bt "STATUS:LOGGING_STARTED"] ∧
    (dispatchCommand envW
      (dispatchCommand envW initState ("NEW_DRYING:Mango:01012024:080000".toList)).1
      ("START".toList)).1.isLogging = true := by
  decide

/-- Feeding non-terminator characters that fit in the remaining buffer space
just appends them to the buffer. -/
lemma procBytes_fill (xs : List Char) : ∀ (buf ys : List Char),
    (∀ c ∈ xs, ¬(c = '\n' ∨ c = '\r')) → buf.length + xs.length ≤ 127 →
    procBytes buf (xs ++ ys) = procBytes (buf ++ xs) ys := by
  induction xs with
  | nil => intro buf ys _ _; simp
  | cons c cs ih =>
    intro buf ys hnl hlen
    have hc : ¬(c = '\n' ∨ c = '\r') := hnl c (List.mem_cons_self c cs)
    have hbuf : buf.length < 127 := by
      have := hlen; simp [List.length_cons] at this; omega
    have h1 : procBytes buf (c :: (cs ++ ys)) = procBytes (buf ++ [c]) (cs ++ ys) := by
      simp [procBytes, hc, hbuf]
    have h2 : procBytes (buf ++ [c]) (cs ++ ys) = procBytes ((buf ++ [c]) ++ cs) ys := by
      refine ih (buf ++ [c]) ys (fun d hd => hnl d (List.mem_cons_of_mem c hd)) ?_
      simp at hlen ⊢; omega
    calc procBytes buf ((c :: cs) ++ ys) = procBytes (buf ++ [c]) (cs ++ ys) := h1
      _ = procBytes ((buf ++ [c]) ++ cs) ys := h2
      _ = procBytes (buf ++ c :: cs) ys := by simp

/-- Claim C3 (counterexample): a 128-character line followed by `STOP` and a
newline triggers the too-long rejection, but the tail `STOP` of that same
oversized line is afterwards handed to the command dispatch. -/
theorem oversizedLine_tail_dispatched_cex :
    procBytes [] (List.replicate 128 'A' ++ "STOP".toList ++ ['\n'])
      = ([.tooLong, .cmd ("STOP".toList)], []) ∧
    LineEv.cmd ("STOP".toList) ∈
      (procBytes [] (List.replicate 128 'A' ++ "STOP".toList ++ ['\n'])).1 := by
  decide

/-- Claim C3 (amended): a line overflowing the 128-byte command buffer is
answered with the too-long rejection and the 127 buffered characters plus
the overflowing one are discarded — no prefix of the line up to the overflow
point is dispatched — but the remainder of the line after the overflow point
refills the buffer as if it were a fresh line and is dispatched as a command
at the terminating newline. -/
theorem oversizedLine_tail_dispatched (pre tail : List Char)
    (hpre : pre.length = 128) (hprenl : ∀ c ∈ pre, ¬(c = '\n' ∨ c = '\r'))
    (htail : tail.length ≤ 126) (htailnl : ∀ c ∈ tail, ¬(c = '\n' ∨ c = '\r'))
    (hne : tail ≠ []) :
    procBytes [] (pre ++ tail ++ ['\n']) = ([.tooLong, .cmd tail], []) := by
  obtain ⟨xs, c, hxc, hxs⟩ : ∃ xs c, pre = xs ++ [c] ∧ xs.length = 127 := by
    rcases List.eq_nil_or_concat pre with h | ⟨xs, c, h⟩
    · simp [h] at hpre
    · exact ⟨xs, c, by simpa [List.concat_eq_append] using h, by simp [h] at hpre; omega⟩
  have hxnl : ∀ d ∈ xs, ¬(d = '\n' ∨ d = '\r') :=
    fun d hd => hprenl d (by simp [hxc, List.mem_append]; exact Or.inl hd)
  have hcnl : ¬(c = '\n' ∨ c = '\r') :=
    hprenl c (by simp [hxc])
  have step1 : procBytes [] (pre ++ tail ++ ['\n'])
      = procBytes xs (c :: (tail ++ ['\n'])) := by
    have := procBytes_fill xs [] (c :: (tail ++ ['\n'])) hxnl (by simp [hxs])
    simpa [hxc, List.append_assoc] using this
  have step2 : procBytes xs (c :: (tail ++ ['\n']))
      = (LineEv.tooLong :: (procBytes [] (tail ++ ['\n'])).1,
         (procBytes [] (tail ++ ['\n'])).2) := by
    have hxbig : ¬ xs.length < 127 := by omega
    simp [procBytes, hcnl, hxbig]
  have step3 : procBytes [] (tail ++ ['\n']) = ([.cmd tail], []) := by
    have hfill := procBytes_fill tail [] ['\n'] htailnl (by simp; omega)
    have hlast : procBytes tail ['\n'] = ([.cmd tail], []) := by
      have hlen : tail.length > 0 := List.length_pos.mpr hne
      simp [procBytes, hlen]
    simpa [hlast] using hfill
  rw [step1, step2, step3]

/-- Witness for the amended C3: an oversized line of 128 `'B'`s with tail
`HI` is rejected too-long and the tail dispatched. -/
theorem oversizedLine_tail_dispatched_witness :
    procBytes [] (List.replicate 128 'B' ++ "HI".toList ++ ['\n'])
      = ([.tooLong, .cmd ("HI".toList)], []) :=
  oversizedLine_tail_dispatched (List.replicate 128 'B') ("HI".toList)
    (by simp) (by intro c hc; simp [List.eq_of_mem_replicate hc])
    (by decide) (by decide) (by decide)

/-- Two command patterns that are not prefixes of one another cannot both be
prefixes of the same command line. -/
lemma isPrefixOf_false_of_clash {p q l : List Char} (hp : p.isPrefixOf l = true)
    (h1 : p.isPrefixOf q = false) (h2 : q.isPrefixOf p = false) :
    q.isPrefixOf l = false := by
  cases hql : q.isPrefixOf l with
  | false => rfl
  | true =>
    exfalso
    rcases List.prefix_or_prefix_of_prefix (List.isPrefixOf_iff_prefix.mp hp)
        (List.isPrefixOf_iff_prefix.mp hql) with hpq | hqp
    · rw [← List.isPrefixOf_iff_prefix] at hpq
      simp [h1] at hpq
    · rw [← List.isPrefixOf_iff_prefix] at hqp
      simp [h2] at hqp

/-- Claim C4 (counterexample): `GETCONFIG` sent while file browsing is
rejected as an unknown command and never reaches the configuration handler;
the state is unchanged. -/
theorem configCommand_unknown_in_downloading_cex :
    dispatchCommand envW { initState with currentState := .DOWNLOADING_FILE }
        ("GETCONFIG".toList)
      = ({ initState with currentState := .DOWNLOADING_FILE },
         [.bt "ERROR:UNKNOWN_COMMAND_DOWNLOADING_STATE"]) := by
  decide

/-- Claim C4 (amended): the configuration commands (`GETCONFIG`-, `SET:`-
shaped and `SAVECONFIG`) are dispatched to the configuration handler in the
Idle and Logging states, but in the FileBrowsing state they are rejected
with `ERROR:UNKNOWN_COMMAND_DOWNLOADING_STATE` and the state is unchanged. -/
theorem configCommands_dispatch (env : Env) (s : SysState) (cmd : List Char)
    (hcfg : "GETCONFIG".toList.isPrefixOf cmd = true ∨
      "SET:".toList.isPrefixOf cmd = true ∨ cmd = "SAVECONFIG".toList) :
    ((s.currentState = .WAITING_FOR_COMMAND ∨ s.currentState = .LOGGING_DATA) →
      dispatchCommand env s cmd = handleConfigCommand s cmd) ∧
    (s.currentState = .DOWNLOADING_FILE →
      dispatchCommand env s cmd = (s, [.bt "ERROR:UNKNOWN_COMMAND_DOWNLOADING_STATE"])) := by
  rcases hcfg with hGC | hSET | hSAVE
  · have hND : "NEW_DRYING:".toList.isPrefixOf cmd = false :=
      isPrefixOf_false_of_clash hGC (by decide) (by decide)
    have hCD : "CONTINUED_DRYING:".toList.isPrefixOf cmd = false :=
      isPrefixOf_false_of_clash hGC (by decide) (by decide)
    have hGF : "GET_FILE:".toList.isPrefixOf cmd = false :=
      isPrefixOf_false_of_clash hGC (by decide) (by decide)
    have hne : ∀ w : List Char, "GETCONFIG".toList.isPrefixOf w = false → cmd ≠ w := by
      intro w hw heq
      rw [← heq] at hw
      rw [hGC] at hw
      exact Bool.noConfusion hw
    have hND' : ¬ ("NEW_DRYING:".toList.isPrefixOf cmd = true) := by
      intro h
      rw [h] at hND
      exact Bool.noConfusion hND
    have hCD' : ¬ ("CONTINUED_DRYING:".toList.isPrefixOf cmd = true) := by
      intro h
      rw [h] at hCD
      exact Bool.noConfusion hCD
    have hGF' : ¬ ("GET_FILE:".toList.isPrefixOf cmd = true) := by
      intro h
      rw [h] at hGF
      exact Bool.noConfusion hGF
    refine ⟨?_, ?_⟩
    · rintro (hw | hw)
      · simp only [dispatchCommand, hw]
        rw [if_neg hND', if_neg hCD', if_pos (Or.inl hGC)]
      · simp only [dispatchCommand, hw]
        rw [if_neg (hne ("START".toList) (by decide)),
          if_neg (hne ("STOP".toList) (by decide)),
          if_neg (not_or.mpr ⟨hne ("T".toList) (by decide), hne ("t".toList) (by decide)⟩),
          if_pos (Or.inl hGC)]
    · intro hw
      simp only [dispatchCommand, hw]
      rw [if_neg hGF', if_neg (hne ("BACK".toList) (by decide)),
        if_neg (hne ("RESET_SYSTEM".toList) (by decide))]
  · have hND : "NEW_DRYING:".toList.isPrefixOf cmd = false :=
      isPrefixOf_false_of_clash hSET (by decide) (by decide)
    have hCD : "CONTINUED_DRYING:".toList.isPrefixOf cmd = false :=
      isPrefixOf_false_of_clash hSET (by decide) (by decide)
    have hGF : "GET_FILE:".toList.isPrefixOf cmd = false :=
      isPrefixOf_false_of_clash hSET (by decide) (by decide)
    have hne : ∀ w : List Char, "SET:".toList.isPrefixOf w = false → cmd ≠ w := by
      intro w hw heq
      rw [← heq] at hw
      rw [hSET] at hw
      exact Bool.noConfusion hw
    have hND' : ¬ ("NEW_DRYING:".toList.isPrefixOf cmd = true) := by
      intro h
      rw [h] at hND
      exact Bool.noConfusion hND
    have hCD' : ¬ ("CONTINUED_DRYING:".toList.isPrefixOf cmd = true) := by
      intro h
      rw [h] at hCD
      exact Bool.noConfusion hCD
    have hGF' : ¬ ("GET_FILE:".toList.isPrefixOf cmd = true) := by
      intro h
      rw [h] at hGF
      exact Bool.noConfusion hGF
    refine ⟨?_, ?_⟩
    · rintro (hw | hw)
      · simp only [dispatchCommand, hw]
        rw [if_neg hND', if_neg hCD', if_pos (Or.inr (Or.inl hSET))]
      · simp only [dispatchCommand, hw]
        rw [if_neg (hne ("START".toList) (by decide)),
          if_neg (hne ("STOP".toList) (by decide)),
          if_neg (not_or.mpr ⟨hne ("T".toList) (by decide), hne ("t".toList) (by decide)⟩),
          if_pos (Or.inr (Or.inl hSET))]
    · intro hw
      simp only [dispatchCommand, hw]
      rw [if_neg hGF', if_neg (hne ("BACK".toList) (by decide)),
        if_neg (hne ("RESET_SYSTEM".toList) (by decide))]
  · subst hSAVE
    refine ⟨?_, ?_⟩
    · rintro (hw | hw) <;> simp only [dispatchCommand, hw] <;> rfl
    · intro hw
      simp only [dispatchCommand, hw]
      rfl

/-- Witness for the amended C4: `GETCONFIG` from Idle goes to the
configuration handler. -/
theorem configCommands_dispatch_witness :
    dispatchCommand envW initState ("GETCONFIG".toList)
      = handleConfigCommand initState ("GETCONFIG".toList) :=
  (configCommands_dispatch envW initState ("GETCONFIG".toList)
    (Or.inl (by decide))).1 (Or.inl rfl)

/-- `softReset` always clears the logging flag and closes the file. -/
lemma softReset_clears (s : SysState) :
    (softReset s).1.isLogging = false ∧ (softReset s).1.dataFileOpen = false := by
  simp [softReset]

/-- `handleSetCommand` touches neither the logging flag nor the file handle. -/
lemma handleSetCommand_preserves (s : SysState) (cmd : List Char) :
    (handleSetCommand s cmd).1.isLogging = s.isLogging ∧
    (handleSetCommand s cmd).1.dataFileOpen = s.dataFileOpen := by
  simp only [handleSetCommand]
  by_cases hfc : idxFrom cmd ':' 4 = (-1 : Int)
  · rw [if_pos hfc]; exact ⟨rfl, rfl⟩
  · rw [if_neg hfc]; exact ⟨rfl, rfl⟩

/-- The configuration handler touches neither the logging flag nor the file
handle. -/
lemma handleConfigCommand_preserves (s : SysState) (cmd : List Char) :
    (handleConfigCommand s cmd).1.isLogging = s.isLogging ∧
    (handleConfigCommand s cmd).1.dataFileOpen = s.dataFileOpen := by
  simp only [handleConfigCommand]
  by_cases h1 : "GETCONFIG".toList.isPrefixOf cmd = true
  · rw [if_pos h1]; exact ⟨rfl, rfl⟩
  · rw [if_neg h1]
    by_cases h2 : "SET:".toList.isPrefixOf cmd = true
    · rw [if_pos h2]; exact handleSetCommand_preserves s cmd
    · rw [if_neg h2]
      by_cases h3 : cmd = "SAVECONFIG".toList
      · rw [if_pos h3]; exact ⟨rfl, rfl⟩
      · rw [if_neg h3]; exact ⟨rfl, rfl⟩

/-- `handleNewDrying` preserves "logging implies file open". -/
lemma handleNewDrying_inv (env : Env) (s : SysState) (cmd : List Char)
    (h : s.isLogging = true → s.dataFileOpen = true) :
    (handleNewDrying env s cmd).1.isLogging = true →
    (handleNewDrying env s cmd).1.dataFileOpen = true := by
  simp only [handleNewDrying]
  split_ifs with h1 h2 h3
  · exact h
  · exact h
  · exact fun _ => h3
  · intro hL
    rw [(softReset_clears _).1] at hL
    exact Bool.noConfusion hL

/-- `handleContinuedDrying` preserves "logging implies file open". -/
lemma handleContinuedDrying_inv (env : Env) (s : SysState) (cmd : List Char)
    (h : s.isLogging = true → s.dataFileOpen = true) :
    (handleContinuedDrying env s cmd).1.isLogging = true →
    (handleContinuedDrying env s cmd).1.dataFileOpen = true := by
  simp only [handleContinuedDrying]
  split_ifs with h1 h2 h3 h4 h5 h6
  · exact h
  · exact h
  · exact h
  · intro hL
    rw [(softReset_clears _).1] at hL
    exact Bool.noConfusion hL
  · exact fun _ => rfl
  · intro hL
    rw [(softReset_clears _).1] at hL
    exact Bool.noConfusion hL
  · intro hL
    rw [(softReset_clears _).1] at hL
    exact Bool.noConfusion hL

/-- `startLogging` preserves "logging implies file open". -/
lemma startLogging_inv (env : Env) (s : SysState)
    (h : s.isLogging = true → s.dataFileOpen = true) :
    (startLogging env s).1.isLogging = true →
    (startLogging env s).1.dataFileOpen = true := by
  simp only [startLogging]
  split_ifs with h1 h2
  · intro hL
    rw [(softReset_clears _).1] at hL
    exact Bool.noConfusion hL
  · intro _
    show s.dataFileOpen = true
    simpa using h2
  · exact h

/-- `stopLogging` leaves the logging flag down. -/
lemma stopLogging_clears (s : SysState) :
    (stopLogging s).1.isLogging = false ∧ (stopLogging s).1.dataFileOpen = false := by
  simp [stopLogging, softReset]

/-- Every dispatched command preserves "logging implies file open". -/
lemma dispatchCommand_inv (env : Env) (s : SysState) (cmd : List Char)
    (h : s.isLogging = true → s.dataFileOpen = true) :
    (dispatchCommand env s cmd).1.isLogging = true →
    (dispatchCommand env s cmd).1.dataFileOpen = true := by
  unfold dispatchCommand
  cases hss : s.currentState
  case WAITING_FOR_COMMAND =>
    dsimp only
    split_ifs with h1 h2 h3 h4 h5
    · exact handleNewDrying_inv env s cmd h
    · exact handleContinuedDrying_inv env s cmd h
    · intro hL
      have hp := handleConfigCommand_preserves s cmd
      rw [hp.1] at hL; rw [hp.2]; exact h hL
    · simpa [handleDownloadFile] using h
    · intro hL; rw [(softReset_clears s).1] at hL; exact Bool.noConfusion hL
    · exact h
  case LOGGING_DATA =>
    dsimp only
    split_ifs with h1 h2 h3 h4 h5
    · exact startLogging_inv env s h
    · intro hL; rw [(stopLogging_clears s).1] at hL; exact Bool.noConfusion hL
    · exact h
    · intro hL
      have hp := handleConfigCommand_preserves s cmd
      rw [hp.1] at hL; rw [hp.2]; exact h hL
    · intro hL; rw [(stopLogging_clears s).1] at hL; exact Bool.noConfusion hL
    · exact h
  case DOWNLOADING_FILE =>
    dsimp only
    split_ifs with h1 h2 h3
    · exact h
    · intro hL; rw [(softReset_clears s).1] at hL; exact Bool.noConfusion hL
    · intro hL; rw [(softReset_clears s).1] at hL; exact Bool.noConfusion hL
    · exact h

/-- The controller states reachable from boot through the command dispatch. -/
inductive Reachable : SysState → Prop where
  | boot : Reachable initState
  | step (s : SysState) (env : Env) (cmd : List Char) :
      Reachable s → Reachable (dispatchCommand env s cmd).1

/-- Claim C5 (counterexample): right after a successful `NEW_DRYING` the
session file handle is open for writing while `isLogging` is still false —
a reachable state in which "file open iff logging" fails, precisely the
created-but-not-logging sub-state the claim says satisfies it. -/
theorem fileOpen_without_logging_cex :
    Reachable (dispatchCommand envW initState
      ("NEW_DRYING:Mango:01012024:080000".toList)).1 ∧
    (dispatchCommand envW initState
      ("NEW_DRYING:Mango:01012024:080000".toList)).1.dataFileOpen = true ∧
    (dispatchCommand envW initState
      ("NEW_DRYING:Mango:01012024:080000".toList)).1.isLogging = false :=
  ⟨Reachable.step initState envW ("NEW_DRYING:Mango:01012024:080000".toList)
    Reachable.boot, by decide, by decide⟩

/-- Claim C5 (amended): in every reachable state, if the session is in the
logging state (`isLogging`) then the file handle is open for writing; the
converse fails — after `NEW_DRYING` and before `START` the handle is open
while `isLogging` is false. -/
theorem logging_implies_fileOpen (s : SysState) (h : Reachable s) :
    s.isLogging = true → s.dataFileOpen = true := by
  induction h with
  | boot => intro hL; exact Bool.noConfusion hL
  | step s env cmd _ ih => exact dispatchCommand_inv env s cmd ih

/-- Witness for the amended C5: the reachable state after `NEW_DRYING`,
`START` has `isLogging` set, and the theorem yields the open file handle. -/
theorem logging_implies_fileOpen_witness :
    (dispatchCommand envW
      (dispatchCommand envW initState ("NEW_DRYING:Mango:01012024:080000".toList)).1
      ("START".toList)).1.dataFileOpen = true :=
  logging_implies_fileOpen _
    (Reachable.step _ envW ("START".toList)
      (Reachable.step initState envW ("NEW_DRYING:Mango:01012024:080000".toList)
        Reachable.boot))
    (by decide)

/-- `idxAux` finds the first occurrence of `ch` right after a block that does
not contain it. -/
lemma idxAux_append_hit (ch : Char) (rest : List Char) :
    ∀ (xs : List Char) (i : ℕ), ch ∉ xs →
      idxAux (xs ++ ch :: rest) ch i = ((i + xs.length : ℕ) : Int) := by
  intro xs
  induction xs with
  | nil => intro i _; simp [idxAux]
  | cons c cs ih =>
    intro i hm
    have hc : ¬ (c = ch) := fun h => hm (h ▸ List.mem_cons_self c cs)
    simp only [List.cons_append, idxAux, if_neg hc, List.append_eq]
    rw [ih (i + 1) (fun h => hm (List.mem_cons_of_mem c h))]
    congr 1
    simp only [List.length_cons]
    omega

/-- `idxAux` reports `-1` on a block that does not contain the character. -/
lemma idxAux_no_hit (ch : Char) :
    ∀ (xs : List Char) (i : ℕ), ch ∉ xs → idxAux xs ch i = -1 := by
  intro xs
  induction xs with
  | nil => intro i _; rfl
  | cons c cs ih =>
    intro i hm
    have hc : ¬ (c = ch) := fun h => hm (h ▸ List.mem_cons_self c cs)
    simp only [idxAux, if_neg hc]
    exact ih (i + 1) (fun h => hm (List.mem_cons_of_mem c h))

/-- `String::indexOf(':', start)` right after the block `P` finds the colon
that follows the colon-free block `xs`. -/
lemma idxFrom_split (P xs rest : List Char) (ch : Char) (hx : ch ∉ xs) :
    idxFrom (P ++ (xs ++ ch :: rest)) ch P.length
      = ((P.length + xs.length : ℕ) : Int) := by
  unfold idxFrom
  rw [List.drop_left' rfl]
  exact idxAux_append_hit ch rest xs P.length hx

/-- `substring` of the block between `P` and `R`. -/
lemma sub_extract (P mid R : List Char) :
    sub (P ++ (mid ++ R)) P.length (P.length + mid.length) = mid := by
  unfold sub
  rw [← List.append_assoc]
  rw [List.take_left' (by simp)]
  exact List.drop_left' rfl

/-- Claim C6 (counterexample): `SET:FOO:1` has an unknown key; no field is
altered, but the firmware answers `OK:SETTING_UPDATED` — a success response,
not an error. -/
theorem handleSetCommand_unknown_key_cex :
    (handleSetCommand initState ("SET:FOO:1".toList)).2 = [.bt "OK:SETTING_UPDATED"] ∧
    (handleSetCommand initState ("SET:FOO:1".toList)).1 = initState := by
  decide

/-- Claim C6 (amended): a `SET` command whose key is none of the eight known
configuration keys alters no configuration field — a following `GETCONFIG`
dump is unchanged — but it is acknowledged with the success response
`OK:SETTING_UPDATED` rather than reported as an error. -/
theorem handleSetCommand_unknown_key (s : SysState) (key val : List Char)
    (hc : ':' ∉ key)
    (h1 : key ≠ "CALIB".toList) (h2 : key ≠ "SOLAR_LOW".toList)
    (h3 : key ≠ "SOLAR_HIGH".toList) (h4 : key ≠ "DWELL_TIME".toList)
    (h5 : key ≠ "REINIT_INT".toList) (h6 : key ≠ "SD_LOG_INT".toList)
    (h7 : key ≠ "DISPLAY_INT".toList) (h8 : key ≠ "BT_INT".toList) :
    handleSetCommand s ("SET:".toList ++ key ++ ':' :: val)
      = (s, [.bt "OK:SETTING_UPDATED"]) ∧
    getConfigOutput (handleSetCommand s ("SET:".toList ++ key ++ ':' :: val)).1.config
      = getConfigOutput s.config := by
  have hidx : idxFrom ("SET:".toList ++ key ++ ':' :: val) ':' 4
      = ((4 + key.length : ℕ) : Int) := by
    simpa using idxFrom_split ("SET:".toList) key val ':' hc
  have hne : (((4 + key.length : ℕ) : Int)) ≠ -1 := by omega
  have hkey : sub ("SET:".toList ++ key ++ ':' :: val) 4 (4 + key.length) = key := by
    simpa using sub_extract ("SET:".toList) key (':' :: val)
  have main : handleSetCommand s ("SET:".toList ++ key ++ ':' :: val)
      = (s, [.bt "OK:SETTING_UPDATED"]) := by
    simp only [handleSetCommand, hidx]
    rw [if_neg hne, Int.toNat_natCast, hkey,
      if_neg h1, if_neg h2, if_neg h3, if_neg h4,
      if_neg h5, if_neg h6, if_neg h7, if_neg h8]
  exact ⟨main, by rw [main]⟩

/-- Witness for the amended C6: unknown key `BAR` with value `2`. -/
theorem handleSetCommand_unknown_key_witness :
    handleSetCommand initState ("SET:".toList ++ "BAR".toList ++ ':' :: "2".toList)
      = (initState, [.bt "OK:SETTING_UPDATED"]) :=
  (handleSetCommand_unknown_key initState ("BAR".toList) ("2".toList)
    (by decide) (by decide) (by decide) (by decide) (by decide) (by decide)
    (by decide) (by decide) (by decide)).1

/-- Wire shape of a `CONTINUED_DRYING:<date>:<time>` command line. -/
def continuedCmd (d t : List Char) : List Char :=
  "CONTINUED_DRYING:".toList ++ d ++ ':' :: t

/-- Claim C7: a `CONTINUED_DRYING` command with a well-formed datetime fails
with the no-prior-session error when no file name was ever persisted —
`handleContinuedDrying` never reads `currentState`, so this holds for every
controller state `s` — fails with `ERROR:File not found` when the persisted
name is absent from storage, and otherwise (reopen succeeding) reopens the
file for append, writes the marker row with the new reference datetime, and
enters the logging state immediately. -/
theorem handleContinuedDrying_resume (env : Env) (s : SysState) (d t : List Char)
    (hd : ':' ∉ d)
    (hparse : (parseInitialDateTime (d ++ '_' :: t) s.initialDateTime).2 = true) :
    (s.eepromFilename = [] →
      (handleContinuedDrying env s (continuedCmd d t)).2
        = .bt "ERROR:No previous file found in EEPROM" ::
            .bt "STATUS:SYSTEM_RESET" :: sendAlert ∧
      (handleContinuedDrying env s (continuedCmd d t)).1.isLogging = false ∧
      (handleContinuedDrying env s (continuedCmd d t)).1.currentState
        = .WAITING_FOR_COMMAND) ∧
    (s.eepromFilename ≠ [] → s.eepromFilename ∉ env.sdFiles →
      (handleContinuedDrying env s (continuedCmd d t)).2
        = .bt "ERROR:File not found" :: .bt "STATUS:SYSTEM_RESET" :: sendAlert ∧
      (handleContinuedDrying env s (continuedCmd d t)).1.isLogging = false) ∧
    (s.eepromFilename ≠ [] → s.eepromFilename ∈ env.sdFiles → env.openOk = true →
      (handleContinuedDrying env s (continuedCmd d t)).1.isLogging = true ∧
      (handleContinuedDrying env s (continuedCmd d t)).1.currentState
        = .LOGGING_DATA ∧
      (handleContinuedDrying env s (continuedCmd d t)).1.dataFileOpen = true ∧
      (handleContinuedDrying env s (continuedCmd d t)).2
        = [.bt ("OK:CONTINUED_SESSION:" ++ String.mk s.eepromFilename),
           .bt "STATUS:LOGGING_STARTED",
           .file ("# Time reference reset to: " ++ String.mk (d ++ '_' :: t))]) := by
  have hfc : idxFrom (continuedCmd d t) ':' 0 = ((16 : ℕ) : Int) := by
    have h := idxAux_append_hit ':' (d ++ ':' :: t) ("CONTINUED_DRYING".toList) 0 (by decide)
    simpa [idxFrom, continuedCmd] using h
  have hsc : idxFrom (continuedCmd d t) ':' 17 = ((17 + d.length : ℕ) : Int) := by
    have h := idxFrom_split ("CONTINUED_DRYING:".toList) d t ':' hd
    simpa [continuedCmd] using h
  have hdate : sub (continuedCmd d t) 17 (17 + d.length) = d := by
    have h := sub_extract ("CONTINUED_DRYING:".toList) d (':' :: t)
    simpa [continuedCmd] using h
  have htime : (continuedCmd d t).drop (17 + d.length + 1) = t := by
    have h : continuedCmd d t = ("CONTINUED_DRYING:".toList ++ d ++ [':']) ++ t := by
      simp [continuedCmd]
    rw [h]
    refine List.drop_left' ?_
    simp
    omega
  have hne2 : ¬ ((17 : Int) + (d.length : Int) = -1) := by omega
  have htn : ((17 : Int) + (d.length : Int)).toNat = 17 + d.length := by omega
  refine ⟨?_, ?_, ?_⟩
  · intro heep
    refine ⟨?_, ?_, ?_⟩ <;>
      simp [handleContinuedDrying, hfc, hsc, hdate, htime, hparse, hne2, htn, heep,
        softReset, sendAlert]
  · intro heep hmem
    refine ⟨?_, ?_⟩ <;>
      simp [handleContinuedDrying, hfc, hsc, hdate, htime, hparse, hne2, htn, heep, hmem,
        softReset, sendAlert]
  · intro heep hmem hopen
    refine ⟨?_, ?_, ?_, ?_⟩ <;>
      simp [handleContinuedDrying, hfc, hsc, hdate, htime, hparse, hne2, htn, heep, hmem,
        hopen, softReset, sendAlert]

/-- State for the C7 witness: a prior session name is persisted in EEPROM. -/
def sResume : SysState := { initState with eepromFilename := "Mango.txt".toList }

/-- Environment for the C7 witness: the persisted file is present on the
card and reopening succeeds. -/
def envResume : Env :=
  { sdFiles := ["Mango.txt".toList], fileData := fun _ => [], openOk := true,
    rootOk := true, tareOk := true, now := 0 }

/-- Witness for C7: resuming with the persisted file present reopens it,
writes the marker row and starts logging immediately. -/
theorem handleContinuedDrying_resume_witness :
    (handleContinuedDrying envResume sResume
      (continuedCmd ("02012024".toList) ("090000".toList))).1.isLogging = true ∧
    (handleContinuedDrying envResume sResume
      (continuedCmd ("02012024".toList) ("090000".toList))).1.currentState
      = .LOGGING_DATA ∧
    (handleContinuedDrying envResume sResume
      (continuedCmd ("02012024".toList) ("090000".toList))).1.dataFileOpen = true ∧
    (handleContinuedDrying envResume sResume
      (continuedCmd ("02012024".toList) ("090000".toList))).2
      = [.bt ("OK:CONTINUED_SESSION:" ++ String.mk sResume.eepromFilename),
         .bt "STATUS:LOGGING_STARTED",
         .file ("# Time reference reset to: "
           ++ String.mk ("02012024".toList ++ '_' :: "090000".toList))] :=
  (handleContinuedDrying_resume envResume sResume ("02012024".toList) ("090000".toList)
    (by decide) (by decide)).2.2 (by decide) (by decide) rfl

/-- A Bool equal to `false` is not equal to `true`. -/
lemma bool_ne_true {b : Bool} (h : b = false) : ¬ (b = true) := by
  intro ht
  rw [ht] at h
  exact Bool.noConfusion h

/-- Claim C9 (counterexample): two failing commands.  `NEW_DRYING:Mango:
99012024:080000` fails datetime validation (day 99) and is answered with an
inline `ERROR:` line, but the parse has already overwritten the session
reference datetime through the out-parameter: `initialDateTime.day` becomes
99.  And the malformed `SET:FOO` (value colon missing) is silently dropped —
`handleSetCommand` returns at the `firstColon == -1` check — so no inline
`ERROR:` line is ever produced for it. -/
theorem protocolErrors_cex :
    (dispatchCommand envW initState
      ("NEW_DRYING:Mango:99012024:080000".toList)).2
      = [.bt "ERROR:Invalid datetime format"] ∧
    (dispatchCommand envW initState
      ("NEW_DRYING:Mango:99012024:080000".toList)).1.initialDateTime.day = 99 ∧
    initState.initialDateTime.day = 0 ∧
    (dispatchCommand envW initState ("SET:FOO".toList)).2 = [] ∧
    (dispatchCommand envW initState ("SET:FOO".toList)).1 = initState := by
  decide

/-- Claim C9 (amended): protocol errors are never fatal.  Unknown commands
are answered with an inline `ERROR:` line and leave the whole controller
state unchanged in all three states, and a rejected oversized line is
answered with the inline too-long error and changes no controller state;
but a `NEW_DRYING`/`CONTINUED_DRYING` command whose 15-character datetime
fails the range validation overwrites the session reference datetime
(`initialDateTime`) before failing — everything else unchanged — and a
malformed `SET` command with no value colon is silently dropped: the state
is unchanged but no response line, `ERROR:` or otherwise, is produced. -/
theorem protocolErrors_inline_nonfatal :
    (∀ (env : Env) (s : SysState) (cmd : List Char),
      s.currentState = .WAITING_FOR_COMMAND →
      "NEW_DRYING:".toList.isPrefixOf cmd = false →
      "CONTINUED_DRYING:".toList.isPrefixOf cmd = false →
      "GETCONFIG".toList.isPrefixOf cmd = false →
      "SET:".toList.isPrefixOf cmd = false →
      cmd ≠ "SAVECONFIG".toList → cmd ≠ "DOWNLOAD_FILE".toList →
      cmd ≠ "RESET_SYSTEM".toList →
      dispatchCommand env s cmd = (s, [.bt "ERROR:UNKNOWN_COMMAND_WAITING_STATE"])) ∧
    (∀ (env : Env) (s : SysState) (cmd : List Char),
      s.currentState = .LOGGING_DATA →
      cmd ≠ "START".toList → cmd ≠ "STOP".toList →
      cmd ≠ "T".toList → cmd ≠ "t".toList →
      "GETCONFIG".toList.isPrefixOf cmd = false →
      "SET:".toList.isPrefixOf cmd = false →
      cmd ≠ "SAVECONFIG".toList → cmd ≠ "RESET_SYSTEM".toList →
      dispatchCommand env s cmd = (s, [.bt "ERROR:UNKNOWN_COMMAND_LOGGING_STATE"])) ∧
    (∀ (env : Env) (s : SysState) (cmd : List Char),
      s.currentState = .DOWNLOADING_FILE →
      "GET_FILE:".toList.isPrefixOf cmd = false →
      cmd ≠ "BACK".toList → cmd ≠ "RESET_SYSTEM".toList →
      dispatchCommand env s cmd = (s, [.bt "ERROR:UNKNOWN_COMMAND_DOWNLOADING_STATE"])) ∧
    (∀ (env : Env) (s : SysState) (cmd : List Char) (fc sc : ℕ),
      s.currentState = .WAITING_FOR_COMMAND →
      "NEW_DRYING:".toList.isPrefixOf cmd = true →
      idxFrom cmd ':' 11 = (fc : Int) →
      idxFrom cmd ':' (fc + 1) = (sc : Int) →
      (parseInitialDateTime (sub cmd (fc + 1) sc ++ '_' :: cmd.drop (sc + 1))
        s.initialDateTime).2 = false →
      dispatchCommand env s cmd
        = ({ s with initialDateTime :=
              (parseInitialDateTime (sub cmd (fc + 1) sc ++ '_' :: cmd.drop (sc + 1))
                s.initialDateTime).1 },
           [.bt "ERROR:Invalid datetime format"])) ∧
    (∀ (env : Env) (s : SysState) (cmd : List Char) (fc sc : ℕ),
      s.currentState = .WAITING_FOR_COMMAND →
      "NEW_DRYING:".toList.isPrefixOf cmd = false →
      "CONTINUED_DRYING:".toList.isPrefixOf cmd = true →
      idxFrom cmd ':' 0 = (fc : Int) →
      idxFrom cmd ':' (fc + 1) = (sc : Int) →
      (parseInitialDateTime (sub cmd (fc + 1) sc ++ '_' :: cmd.drop (sc + 1))
        s.initialDateTime).2 = false →
      dispatchCommand env s cmd
        = ({ s with initialDateTime :=
              (parseInitialDateTime (sub cmd (fc + 1) sc ++ '_' :: cmd.drop (sc + 1))
                s.initialDateTime).1 },
           [.bt "ERROR:Invalid datetime format"])) ∧
    (∀ (env : Env) (s : SysState) (evs : List LineEv),
      runLineEvs env s (.tooLong :: evs)
        = ((runLineEvs env s evs).1,
           .bt "ERROR:Command too long" :: (runLineEvs env s evs).2)) ∧
    (∀ (env : Env) (s : SysState) (rest : List Char),
      (s.currentState = .WAITING_FOR_COMMAND ∨ s.currentState = .LOGGING_DATA) →
      ':' ∉ rest →
      dispatchCommand env s ("SET:".toList ++ rest) = (s, [])) := by
  refine ⟨?_, ?_, ?_, ?_, ?_, ?_, ?_⟩
  · intro env s cmd hw h1 h2 h3 h4 h5 h6 h7
    simp only [dispatchCommand, hw]
    rw [if_neg (bool_ne_true h1), if_neg (bool_ne_true h2),
      if_neg (not_or.mpr ⟨bool_ne_true h3, not_or.mpr ⟨bool_ne_true h4, h5⟩⟩),
      if_neg h6, if_neg h7]
  · intro env s cmd hw h1 h2 h3 h4 h5 h6 h7 h8
    simp only [dispatchCommand, hw]
    rw [if_neg h1, if_neg h2, if_neg (not_or.mpr ⟨h3, h4⟩),
      if_neg (not_or.mpr ⟨bool_ne_true h5, not_or.mpr ⟨bool_ne_true h6, h7⟩⟩),
      if_neg h8]
  · intro env s cmd hw h1 h2 h3
    simp only [dispatchCommand, hw]
    rw [if_neg (bool_ne_true h1), if_neg h2, if_neg h3]
  · intro env s cmd fc sc hw hpre hfc hsc hparse
    have ht1 : ((fc : Int) + 1).toNat = fc + 1 := by omega
    simp only [dispatchCommand, hw]
    rw [if_pos hpre]
    simp only [handleNewDrying, hfc, ht1, hsc, Int.toNat_natCast]
    rw [if_neg (not_or.mpr ⟨by omega, by omega⟩), if_pos hparse, hw]
  · intro env s cmd fc sc hw hnd hpre hfc hsc hparse
    have ht1 : ((fc : Int) + 1).toNat = fc + 1 := by omega
    simp only [dispatchCommand, hw]
    rw [if_neg (bool_ne_true hnd), if_pos hpre]
    simp only [handleContinuedDrying, hfc, ht1, hsc, Int.toNat_natCast]
    rw [if_neg (by omega), if_neg (by omega), if_pos hparse, hw]
  · intro env s evs
    rfl
  · intro env s rest hst hc
    have hND : "NEW_DRYING:".toList.isPrefixOf ("SET:".toList ++ rest) = false := rfl
    have hCD : "CONTINUED_DRYING:".toList.isPrefixOf ("SET:".toList ++ rest) = false := rfl
    have hGC : "GETCONFIG".toList.isPrefixOf ("SET:".toList ++ rest) = false := rfl
    have hSET : "SET:".toList.isPrefixOf ("SET:".toList ++ rest) = true :=
      List.isPrefixOf_iff_prefix.mpr (List.prefix_append _ _)
    have hfc : idxFrom ("SET:".toList ++ rest) ':' 4 = -1 := by
      unfold idxFrom
      rw [List.drop_left' (show ("SET:".toList).length = 4 from rfl)]
      exact idxAux_no_hit ':' rest 4 hc
    have hcfg : handleConfigCommand s ("SET:".toList ++ rest) = (s, []) := by
      simp only [handleConfigCommand]
      rw [if_neg (bool_ne_true hGC), if_pos hSET]
      simp only [handleSetCommand, hfc]
      rw [if_pos trivial]
    rcases hst with hw | hw
    · simp only [dispatchCommand, hw]
      rw [if_neg (bool_ne_true hND), if_neg (bool_ne_true hCD),
        if_pos (Or.inr (Or.inl hSET))]
      exact hcfg
    · simp only [dispatchCommand, hw]
      rw [if_neg (by simp : "SET:".toList ++ rest ≠ "START".toList),
        if_neg (by simp : "SET:".toList ++ rest ≠ "STOP".toList),
        if_neg (not_or.mpr ⟨(by simp : "SET:".toList ++ rest ≠ "T".toList),
          (by simp : "SET:".toList ++ rest ≠ "t".toList)⟩),
        if_pos (Or.inr (Or.inl hSET))]
      exact hcfg

/-- Witness for the amended C9: a concrete `NEW_DRYING` with day 99 fails
validation, answers the inline error, and only `initialDateTime` changes. -/
theorem protocolErrors_inline_nonfatal_witness :
    dispatchCommand envW initState ("NEW_DRYING:Apple:99012024:080000".toList)
      = ({ initState with
            initialDateTime :=
              (parseInitialDateTime ("99012024_080000".toList)
                initState.initialDateTime).1 },
         [.bt "ERROR:Invalid datetime format"]) := by
  have h := protocolErrors_inline_nonfatal.2.2.2.1 envW initState
    ("NEW_DRYING:Apple:99012024:080000".toList) 16 25 rfl (by decide) (by decide)
    (by decide) (by decide)
  simpa using h

end SolarDryer
